import Mathlib

/-!
Verification of the narration-synchronized video assembly pipeline
(`build_video_with_audio/assemble_video.py`, `CentenaryVideo/scripts/assemble_video.py`,
`CentenaryVideo/scripts/merge_narration.py`).

Durations and timestamps are modelled as exact rationals (the Python code uses
floats; every computation the claims touch is plain arithmetic on probed
durations, so exact arithmetic is the faithful idealisation).
-/

namespace AssembleVideo

/-! ## Subtitle timeline builder

`build_srt` (build_video_with_audio/assemble_video.py, lines 189-204):
    start = 0.0; gap = 0.04
    for i, (it, dur) in enumerate(zip(items, durations), start=1):
        st = start; et = st + dur
        ... write cue (st, et) ...
        start = et + gap
-/

/-- The fixed inter-cue gap of `build_srt` (`gap = 0.04`). -/
def srtGap : ℚ := 4/100

/-- Cue emission loop of `build_srt`, carrying the running cursor `start`.
Each cue is the pair (st, et) with st = start, et = st + dur, and the cursor
advances to et + gap. -/
def buildSrtFrom (start : ℚ) : List ℚ → List (ℚ × ℚ)
  | [] => []
  | dur :: rest => (start, start + dur) :: buildSrtFrom (start + dur + srtGap) rest

/-- The cue list `build_srt` emits for a duration sequence (cursor starts at 0.0). -/
def build_srt_cues (durations : List ℚ) : List (ℚ × ℚ) :=
  buildSrtFrom 0 durations

/-! `create_srt_file` (CentenaryVideo/scripts/assemble_video.py, lines 122-145):
    current_time = 0.0
    for i, item in enumerate(narration, start=1):
        dur = item["real_duration"]
        start = current_time; end = current_time + dur - 0.1
        ... write cue (start, end) ...
        current_time += dur
-/

/-- Cue emission loop of `create_srt_file`: cue = (t, t + dur - 0.1), cursor
advances by dur. -/
def createSrtFrom (current_time : ℚ) : List ℚ → List (ℚ × ℚ)
  | [] => []
  | dur :: rest => (current_time, current_time + dur - 1/10) :: createSrtFrom (current_time + dur) rest

/-- The cue list `create_srt_file` emits for a duration sequence. -/
def create_srt_cues (durations : List ℚ) : List (ℚ × ℚ) :=
  createSrtFrom 0 durations

/-! ## Per-item audio durations

`build_merged_audio_per_item` (build_video_with_audio/assemble_video.py,
lines 101-160).  An aligned entry is either `none` (the narration wav is
absent, `find_narration_files` returned None) or `some f` for a present file
`f`.  For a present file the model records whether the ffmpeg normalization
step succeeds (`decodeOk`; `run` raises `CalledProcessError` otherwise), the
ffprobe result on the original file (`origDur`, first pass, lines 113-121)
and the ffprobe result on the normalized tmp file (`normDur`, line 131).
Probing the same file twice returns the same value, so the re-probe of the
tmp files at line 153 (`ffprobe_duration(t) or d`) is the identity on this
model: for a silence placeholder the probe returns its requested length
(always positive), and for a normalized file it returns `normDur` again. -/

/-- `FALLBACK_SILENCE = 0.6` (line 36). -/
def FALLBACK_SILENCE : ℚ := 6/10

/-- A narration audio file that exists on disk. -/
structure PresentFile where
  decodeOk : Bool
  origDur : Option ℚ
  normDur : Option ℚ
deriving DecidableEq

/-- First pass (lines 113-121): durations of the present files whose probe
succeeded (`existing_durs`). -/
def existing_durs (files : List (Option PresentFile)) : List ℚ :=
  files.filterMap (fun o => o.bind PresentFile.origDur)

/-- Line 122: `avg = (sum(existing_durs)/len(existing_durs)) if existing_durs else 2.0`. -/
def avgDur (files : List (Option PresentFile)) : ℚ :=
  let ds := existing_durs files
  if ds.isEmpty then 2 else ds.sum / ds.length

/-- Line 138: `sil_len = avg if avg>0 else FALLBACK_SILENCE`. -/
def sil_len (files : List (Option PresentFile)) : ℚ :=
  if 0 < avgDur files then avgDur files else FALLBACK_SILENCE

/-- One iteration of the second-pass loop (lines 126-141), given `avg`:
a present file is normalized (raising, i.e. `Except.error`, if ffmpeg cannot
decode it) and its duration is the tmp probe or `avg` (lines 131-133); a
missing file yields a silence of `sil_len` (lines 137-141). -/
def itemDuration (avg : ℚ) : Option PresentFile → Except Unit ℚ
  | some f => if f.decodeOk then .ok (f.normDur.getD avg) else .error ()
  | none => .ok (if 0 < avg then avg else FALLBACK_SILENCE)

/-- The second-pass loop over all aligned entries: any raised exception
aborts the whole function (the `except` at lines 155-160 only cleans up tmp
files and re-raises). -/
def buildDursLoop (avg : ℚ) : List (Option PresentFile) → Except Unit (List ℚ)
  | [] => .ok []
  | f :: fs =>
    match itemDuration avg f with
    | .error e => .error e
    | .ok d =>
      match buildDursLoop avg fs with
      | .error e => .error e
      | .ok ds => .ok (d :: ds)

/-- The duration list `build_merged_audio_per_item` returns (or the abort, if
normalization of a present file fails). -/
def build_merged_audio_durations (files : List (Option PresentFile)) :
    Except Unit (List ℚ) :=
  buildDursLoop (avgDur files) files

/-! ## Narration loader

`load_narration_items` (build_video_with_audio/assemble_video.py,
lines 62-76).  A JSON record is modelled by its four fields the loader
touches; `id` is an optional integer (the `except: pass` branch for
non-integer ids is not exercised by integer-or-absent ids). -/

/-- One raw record of narration.json, as the loader reads it. -/
structure NarrRecord where
  id : Option ℤ
  text : Option String
  caption : Option String
  fact : Option String
deriving DecidableEq

/-- A loaded narration item. -/
structure NarrItem where
  id : ℤ
  text : String
deriving DecidableEq

/-- Python `a or b` on optional strings: `None` and `""` are falsy. -/
def pyOrStr : Option String → Option String → Option String
  | some s, b => if s = "" then b else some s
  | none, b => b

/-- Line 73: `text = it.get("text") or it.get("caption") or it.get("fact") or ""`. -/
def recText (r : NarrRecord) : String :=
  (pyOrStr (pyOrStr r.text r.caption) r.fact).getD ""

/-- Line 68 sort key: `int(x.get("id",0))`. -/
def sortKey (r : NarrRecord) : ℤ :=
  r.id.getD 0

/-- The Python `sorted` builtin is a stable sort by key; modelled by the Mathlib
insertion sort with the key order (which is stable: an element is inserted
before precisely the strictly larger keys). -/
def pySorted (data : List NarrRecord) : List NarrRecord :=
  data.insertionSort (fun a b => sortKey a ≤ sortKey b)

/-- Lines 71-75: `for i,it in enumerate(data, start=1): id_ = int(it.get("id", i))`. -/
def mkItemsFrom (i : ℕ) : List NarrRecord → List NarrItem
  | [] => []
  | r :: rs => { id := r.id.getD (i : ℤ), text := recText r } :: mkItemsFrom (i + 1) rs

/-- `load_narration_items`: exits (error) iff narration.json is absent;
otherwise sorts and converts every record, skipping none. -/
def load_narration_items (narrJsonExists : Bool) (data : List NarrRecord) :
    Except Unit (List NarrItem) :=
  if narrJsonExists then .ok (mkItemsFrom 1 (pySorted data)) else .error ()

/-! ## Segment fades

`make_image_segment` (build_video_with_audio/assemble_video.py, lines
172-177): `fade = 0.5`, fade-in at st=0 with d=fade, fade-out at
`st=max(0, dur-fade)` with `d=fade`.
`create_video_segment` (CentenaryVideo/scripts/assemble_video.py, lines
103-120): `fade_d = 0.5`, fade-out at `st=duration-fade_d` with `d=fade_d`. -/

/-- `fade = 0.5` (line 173); also `fade_d = 0.5` (line 104 of the other script). -/
def fade : ℚ := 1/2

/-- Fade-out start of `make_image_segment`: `max(0, dur-fade)`. -/
def fadeOutStart (dur : ℚ) : ℚ := max 0 (dur - fade)

/-- Instant at which the fade-out of `make_image_segment` ends. -/
def fadeOutEnd (dur : ℚ) : ℚ := fadeOutStart dur + fade

/-- Fade-out start of `create_video_segment`: `duration - fade_d` (no clamp). -/
def centFadeOutStart (duration : ℚ) : ℚ := duration - fade

/-- Instant at which the fade-out of `create_video_segment` ends. -/
def centFadeOutEnd (duration : ℚ) : ℚ := centFadeOutStart duration + fade

/-! ## Wave concatenation

`merge_narration.py` (CentenaryVideo/scripts/merge_narration.py).  A wav
file is modelled by the header fields `inspect_wav` reads. -/

/-- The wave parameters `inspect_wav` collects for one file. -/
structure WavInfo where
  nchannels : ℕ
  sampwidth : ℕ
  framerate : ℕ
  comptype : String
  nframes : ℕ
deriving DecidableEq

/-- The keys at which `info` differs from `first`, in the order the loop at
lines 44-48 checks them: `("nchannels","sampwidth","framerate","comptype")`. -/
def mismatchKeys (first info : WavInfo) : List String :=
  (if info.nchannels ≠ first.nchannels then ["nchannels"] else []) ++
  (if info.sampwidth ≠ first.sampwidth then ["sampwidth"] else []) ++
  (if info.framerate ≠ first.framerate then ["framerate"] else []) ++
  (if info.comptype ≠ first.comptype then ["comptype"] else [])

/-- The FORMAT MISMATCH diagnostics printed by `main` (lines 43-48):
one `(file number, key)` pair per differing key, files numbered from 2
(`enumerate(infos[1:], start=2)`). -/
def mismatchDiags (first : WavInfo) (rest : List WavInfo) : List (ℕ × String) :=
  rest.enum.flatMap (fun p => (mismatchKeys first p.2).map (fun k => (p.1 + 2, k)))

/-- What `merge_narration.main` does. -/
inductive MergeOutcome where
  | noFiles
  | mismatchStop (diags : List (ℕ × String))
  | wrote (totalFrames : ℕ)
deriving DecidableEq

/-- `merge_narration.main` (lines 31-68) with the process exit status: no
files → message and return; any mismatch → diagnostics and return (line 55);
otherwise the frames of all files are concatenated and written.  The script
never calls `sys.exit`, so the exit status is 0 on every path. -/
def merge_main (wavs : List WavInfo) : MergeOutcome × ℕ :=
  match wavs with
  | [] => (.noFiles, 0)
  | first :: rest =>
    let diags := mismatchDiags first rest
    if diags.isEmpty then
      (.wrote ((first :: rest).map WavInfo.nframes).sum, 0)
    else
      (.mismatchStop diags, 0)

/-! ## The sync pipeline driver

`main` (build_video_with_audio/assemble_video.py, lines 220-269).  The model
records, in order, the output files `main` writes and whether it reaches the
end (`true`) or exits with status 1 / an uncaught exception (`false`).
Directory creation and tmp files (cleaned up, or unlinked by the `except`
branch of `build_merged_audio_per_item`) are not output files.  The audio
presence of an item id is a function `audioOn` modelling the
`audio/narration_{id:02d}.wav` lookup of `find_narration_files`. -/

/-- The output files the sync pipeline can write, in pipeline order. -/
inductive OutFile where
  | mergedAudio
  | segFile (k : ℕ)
  | fullNoSound
  | srtFile
  | finalVideo
deriving DecidableEq

/-- `main` of the sync pipeline: load narration (exit 1 if narration.json is
missing), resolve per-item audio, build the merged audio (which writes
`audio/merged_narration_sync.wav` on success and propagates the exception on
failure), then — only after the merged audio exists — `pick_images_for_items`
exits 1 when the assets directory holds no image; otherwise all segments,
the concatenated video, the srt and the final video are written. -/
def mainSync (narrJsonExists : Bool) (data : List NarrRecord)
    (audioOn : ℤ → Option PresentFile) (numImages : ℕ) : List OutFile × Bool :=
  match load_narration_items narrJsonExists data with
  | .error _ => ([], false)
  | .ok items =>
    let aligned := items.map (fun it => audioOn it.id)
    match build_merged_audio_durations aligned with
    | .error _ => ([], false)
    | .ok durs =>
      if numImages = 0 then ([.mergedAudio], false)
      else
        (.mergedAudio :: ((List.range (min items.length durs.length)).map .segFile
          ++ [.fullNoSound, .srtFile, .finalVideo]), true)

/-! ## Helper lemmas -/

/-- The per-item value of the second-pass loop when no exception is raised. -/
def pureDuration (avg : ℚ) : Option PresentFile → ℚ
  | some f => f.normDur.getD avg
  | none => if 0 < avg then avg else FALLBACK_SILENCE

theorem itemDuration_eq_pure (avg : ℚ) (f : Option PresentFile)
    (hdec : ∀ pf : PresentFile, f = some pf → pf.decodeOk = true) :
    itemDuration avg f = .ok (pureDuration avg f) := by
  cases f with
  | none => rfl
  | some pf =>
    have h := hdec pf rfl
    simp [itemDuration, pureDuration, h]

theorem buildDursLoop_eq_map (avg : ℚ) (fs : List (Option PresentFile))
    (hdec : ∀ pf : PresentFile, some pf ∈ fs → pf.decodeOk = true) :
    buildDursLoop avg fs = .ok (fs.map (pureDuration avg)) := by
  induction fs with
  | nil => rfl
  | cons f fs ih =>
    have hf : itemDuration avg f = .ok (pureDuration avg f) :=
      itemDuration_eq_pure avg f (fun pf hpf => hdec pf (by simp [hpf]))
    have hrest : buildDursLoop avg fs = .ok (fs.map (pureDuration avg)) :=
      ih (fun pf hpf => hdec pf (List.mem_cons_of_mem _ hpf))
    simp [buildDursLoop, hf, hrest]

theorem buildDursLoop_error_of_corrupt (avg : ℚ) (fs : List (Option PresentFile)) :
    ∀ (k : ℕ) (pf : PresentFile), fs[k]? = some (some pf) → pf.decodeOk = false →
    buildDursLoop avg fs = .error () := by
  induction fs with
  | nil => intro k pf hk _; simp at hk
  | cons f fs ih =>
    intro k pf hk hbad
    cases k with
    | zero =>
      rw [List.getElem?_cons_zero, Option.some.injEq] at hk
      subst hk
      simp [buildDursLoop, itemDuration, hbad]
    | succ k =>
      rw [List.getElem?_cons_succ] at hk
      have hrest := ih k pf hk hbad
      cases hf : itemDuration avg f with
      | error e => cases e; simp [buildDursLoop, hf]
      | ok d => simp [buildDursLoop, hf, hrest]

theorem buildSrtFrom_chain (durs : List ℚ) :
    ∀ t : ℚ, (buildSrtFrom t durs).Chain' (fun a b => a.2 ≤ b.1) := by
  induction durs with
  | nil => intro t; simp [buildSrtFrom]
  | cons d ds ih =>
    intro t
    cases ds with
    | nil => simp [buildSrtFrom]
    | cons d2 ds2 =>
      have h := ih (t + d + srtGap)
      simp only [buildSrtFrom] at h ⊢
      refine List.chain'_cons.mpr ⟨?_, h⟩
      show t + d ≤ t + d + srtGap
      have hg : (0:ℚ) < srtGap := by norm_num [srtGap]
      linarith

theorem createSrtFrom_chain (durs : List ℚ) :
    ∀ t : ℚ, (createSrtFrom t durs).Chain' (fun a b => a.2 ≤ b.1) := by
  induction durs with
  | nil => intro t; simp [createSrtFrom]
  | cons d ds ih =>
    intro t
    cases ds with
    | nil => simp [createSrtFrom]
    | cons d2 ds2 =>
      have h := ih (t + d)
      simp only [createSrtFrom] at h ⊢
      refine List.chain'_cons.mpr ⟨?_, h⟩
      show t + d - 1/10 ≤ t + d
      linarith

theorem buildSrtFrom_getElem (durs : List ℚ) :
    ∀ (t : ℚ) (k : ℕ) (d : ℚ), durs[k]? = some d →
    (buildSrtFrom t durs)[k]? =
      some (t + (durs.take k).sum + k * srtGap,
            t + (durs.take k).sum + k * srtGap + d) := by
  induction durs with
  | nil => intro t k d h; simp at h
  | cons d0 ds ih =>
    intro t k d h
    cases k with
    | zero =>
      rw [List.getElem?_cons_zero, Option.some.injEq] at h
      subst h
      simp [buildSrtFrom]
    | succ k =>
      rw [List.getElem?_cons_succ] at h
      have h2 := ih (t + d0 + srtGap) k d h
      rw [buildSrtFrom, List.getElem?_cons_succ, h2, List.take_succ_cons, List.sum_cons]
      simp only [Option.some.injEq, Prod.mk.injEq]
      push_cast
      constructor <;> ring

/-! ## Claims -/

/-- C1 (counterexample): on durations [2.0, 3.5, 1.0] with its gap of 0.04 s,
`build_srt` does not emit the cues (0.00-1.96), (2.00-5.46), (5.50-6.46)
claimed by the spec (it emits (0.00-2.00), (2.04-5.54), (5.58-6.58)). -/
theorem build_srt_scenario_cex :
    build_srt_cues [2, 7/2, 1] ≠ [(0, 49/25), (2, 273/50), (11/2, 323/50)] := by
  norm_num [build_srt_cues, buildSrtFrom, srtGap]

/-- C1 (amended): `build_srt` walks the duration sequence with cursor `t`
starting at 0; for item k it emits start_k = t and end_k = t + d_k (the gap
is not subtracted from the end), and then advances the cursor by d_k + g
with g = 0.04 s; so cue k is
(sum of the first k durations + k*g, same + d_k). -/
theorem build_srt_cue_formula (durs : List ℚ) (k : ℕ) (d : ℚ)
    (hk : durs[k]? = some d) :
    (build_srt_cues durs)[k]? =
      some ((durs.take k).sum + k * srtGap, (durs.take k).sum + k * srtGap + d) := by
  have h := buildSrtFrom_getElem durs 0 k d hk
  simpa using h

/-- C1 (witness): the formula instantiated at the third item of the
[2.0, 3.5, 1.0] scenario gives the cue (5.58, 6.58). -/
theorem build_srt_cue_formula_witness :
    (build_srt_cues [2, 7/2, 1])[2]? = some (279/50, 329/50) := by
  have h := build_srt_cue_formula [2, 7/2, 1] 2 1 rfl
  norm_num [srtGap] at h
  exact h

/-- C3 (counterexample): a run whose only item has a present but undecodable
audio file makes `build_merged_audio_per_item` raise (the normalization
failure propagates after tmp cleanup); the item is not demoted to a silence
placeholder and the run aborts. -/
theorem corrupt_asset_aborts_cex :
    build_merged_audio_durations [some ⟨false, none, none⟩] = .error () := rfl

/-- C3 (amended): whenever the audio file of any item is present but the ffmpeg
normalization cannot decode it, `build_merged_audio_per_item` raises and the
whole run aborts: no per-item recovery and no placeholder substitution
happens (the `except` branch only unlinks the tmp files and re-raises). -/
theorem corrupt_asset_aborts (files : List (Option PresentFile)) (k : ℕ)
    (pf : PresentFile) (hk : files[k]? = some (some pf))
    (hbad : pf.decodeOk = false) :
    build_merged_audio_durations files = .error () :=
  buildDursLoop_error_of_corrupt (avgDur files) files k pf hk hbad

/-- C3 (witness): a two-item run whose second file is present but
undecodable aborts. -/
theorem corrupt_asset_aborts_witness :
    build_merged_audio_durations [none, some ⟨false, some 1, none⟩] = .error () :=
  corrupt_asset_aborts [none, some ⟨false, some 1, none⟩] 1
    ⟨false, some 1, none⟩ rfl rfl

/-- C7: in both subtitle builders, consecutive cues never overlap: for every
duration sequence and every k, cue[k].end <= cue[k+1].start (`build_srt`
separates consecutive cues by the 0.04 s gap; `create_srt_file` ends each
cue 0.1 s before the next one starts). -/
theorem srt_cues_nonoverlapping (durs : List ℚ) :
    (build_srt_cues durs).Chain' (fun a b => a.2 ≤ b.1) ∧
    (create_srt_cues durs).Chain' (fun a b => a.2 ≤ b.1) :=
  ⟨buildSrtFrom_chain durs 0, createSrtFrom_chain durs 0⟩

/-- C8 (counterexample): for a segment of duration 0.4 s, `make_image_segment`
still uses the fixed fade length 0.5 s, which exceeds d/2 = 0.2 s, and its
fade-out ends at 0.5 s, not at d. -/
theorem fade_not_clamped_cex :
    ¬ fade ≤ (2/5 : ℚ) / 2 ∧ fadeOutEnd (2/5) ≠ (2/5 : ℚ) := by
  constructor <;> norm_num [fade, fadeOutEnd, fadeOutStart, max_def]

/-- C8 (amended): the fade length is the fixed 0.5 s and is never clamped to
d/2; `make_image_segment` clamps only the fade-out start at 0, so its
fade-out ends at max(d, 0.5) — exactly at d only when d >= 0.5 — while
`create_video_segment` leaves the start unclamped (possibly negative) so its
fade-out parameter always ends at d. -/
theorem fadeOutEnd_eq_max (d : ℚ) :
    fadeOutEnd d = max d fade ∧ centFadeOutEnd d = d := by
  constructor
  · rw [fadeOutEnd, fadeOutStart]
    rcases le_total d fade with h | h
    · rw [max_eq_left (by linarith), max_eq_right h]
      ring
    · rw [max_eq_right (by linarith), max_eq_left h]
      ring
  · rw [centFadeOutEnd, centFadeOutStart]
    ring

/-- C2 (counterexample): a run with one present item probing at 0.0 s and one
item is missing: the mean of the present durations is 0, but the placeholder of the missing
placeholder is FALLBACK_SILENCE = 0.6 s (the `avg>0` guard fails), not the
mean. -/
theorem placeholder_not_mean_cex :
    build_merged_audio_durations [some ⟨true, some 0, some 0⟩, none] =
      .ok [0, 3/5] ∧
    FALLBACK_SILENCE ≠
      (existing_durs [some ⟨true, some 0, some 0⟩, none]).sum /
        ((existing_durs [some ⟨true, some 0, some 0⟩, none]).length : ℚ) := by
  have hex : existing_durs [some ⟨true, some 0, some 0⟩, none] = [0] := rfl
  have havg : avgDur [some ⟨true, some 0, some 0⟩, none] = 0 := by
    simp [avgDur, hex]
  constructor
  · rw [build_merged_audio_durations, havg]
    norm_num [buildDursLoop, itemDuration, FALLBACK_SILENCE]
  · rw [hex]
    norm_num [FALLBACK_SILENCE]

/-- C2 (amended): in a run where every present file is decodable and the
present probed durations have positive sum (so their mean is positive, the
`avg>0` guard holds), the placeholder duration of every missing item equals the
arithmetic mean of the present durations; when the mean is zero the fixed
FALLBACK_SILENCE (0.6 s) is used instead, and with zero present items the
fixed 2.0 s default is used. -/
theorem missing_item_gets_mean (files : List (Option PresentFile))
    (hdec : ∀ pf : PresentFile, some pf ∈ files → pf.decodeOk = true)
    (hsum : 0 < (existing_durs files).sum) (k : ℕ)
    (hk : files[k]? = some none) :
    ∃ durs, build_merged_audio_durations files = .ok durs ∧
      durs[k]? =
        some ((existing_durs files).sum / ((existing_durs files).length : ℚ)) := by
  have hne : (existing_durs files).isEmpty = false := by
    rw [List.isEmpty_eq_false]
    intro hemp
    rw [hemp] at hsum
    simp at hsum
  have havg : avgDur files =
      (existing_durs files).sum / ((existing_durs files).length : ℚ) := by
    simp [avgDur, hne]
  have hpos : 0 < avgDur files := by
    rw [havg]
    apply div_pos hsum
    have hnil : existing_durs files ≠ [] := List.isEmpty_eq_false.mp hne
    exact_mod_cast List.length_pos.mpr hnil
  refine ⟨files.map (pureDuration (avgDur files)),
    buildDursLoop_eq_map (avgDur files) files hdec, ?_⟩
  rw [List.getElem?_map, hk]
  have hpd : pureDuration (avgDur files) none = avgDur files := by
    simp only [pureDuration]
    rw [if_pos hpos]
  rw [Option.map_some', hpd, havg]

/-- C2 (witness): present durations [2.0, 1.0] around a missing middle item
give the missing item the placeholder 1.5 s. -/
theorem missing_item_gets_mean_witness :
    ∃ durs, build_merged_audio_durations
        [some ⟨true, some 2, some 2⟩, none, some ⟨true, some 1, some 1⟩] =
          .ok durs ∧
      durs[1]? = some (3/2) := by
  have hex : existing_durs
      [some ⟨true, some 2, some 2⟩, none, some ⟨true, some 1, some 1⟩] =
      [2, 1] := rfl
  have h := missing_item_gets_mean
    [some ⟨true, some 2, some 2⟩, none, some ⟨true, some 1, some 1⟩]
    (by
      intro pf hpf
      simp at hpf
      rcases hpf with h1 | h1 <;> (subst h1; rfl))
    (by rw [hex]; norm_num) 1 rfl
  rw [hex] at h
  norm_num at h
  exact h

/-- C9 (counterexample): two PCM wavs that agree except in sample rate: the
merge script prints the framerate mismatch for file #2 and returns without
writing, but the process exit status is 0, not non-zero. -/
theorem merge_mismatch_exit_zero_cex :
    merge_main [⟨2, 2, 44100, "NONE", 100⟩, ⟨2, 2, 22050, "NONE", 50⟩] =
      (.mismatchStop [(2, "framerate")], 0) := by decide

/-- C9 (amended): whenever the inspected wav headers do not all agree with
the first file on channels, sample width, sample rate and compression type,
`merge_narration.main` reports each mismatch with the file number and the
differing parameter and stops without writing the merged output — but it
returns normally, so the process exit status is 0, not non-zero. -/
theorem merge_mismatch_no_write (first : WavInfo) (rest : List WavInfo)
    (h : mismatchDiags first rest ≠ []) :
    (merge_main (first :: rest)).1 = .mismatchStop (mismatchDiags first rest) ∧
    (merge_main (first :: rest)).2 = 0 ∧
    ∀ n, (merge_main (first :: rest)).1 ≠ .wrote n := by
  have hne : (mismatchDiags first rest).isEmpty = false :=
    List.isEmpty_eq_false.mpr h
  simp [merge_main, hne]

/-- C9 (witness): a channel-count mismatch between two files is reported and
nothing is written, with exit status 0. -/
theorem merge_mismatch_no_write_witness :
    (merge_main [⟨1, 2, 44100, "NONE", 10⟩, ⟨2, 2, 44100, "NONE", 10⟩]).1 =
      .mismatchStop
        (mismatchDiags ⟨1, 2, 44100, "NONE", 10⟩ [⟨2, 2, 44100, "NONE", 10⟩]) ∧
    (merge_main [⟨1, 2, 44100, "NONE", 10⟩, ⟨2, 2, 44100, "NONE", 10⟩]).2 = 0 ∧
    ∀ n, (merge_main [⟨1, 2, 44100, "NONE", 10⟩, ⟨2, 2, 44100, "NONE", 10⟩]).1 ≠
      .wrote n :=
  merge_mismatch_no_write ⟨1, 2, 44100, "NONE", 10⟩ [⟨2, 2, 44100, "NONE", 10⟩]
    (by decide)

/-- C10: when the audio file of every item is missing, the mean falls back to the
2.0 s default, the `avg>0` guard holds, every placeholder silence is exactly
2.0 s long, and FALLBACK_SILENCE (0.6 s) is not used. -/
theorem all_missing_uses_default_two (files : List (Option PresentFile))
    (h : ∀ f ∈ files, f = none) :
    build_merged_audio_durations files = .ok (files.map fun _ => (2:ℚ)) ∧
    0 < avgDur files ∧ sil_len files = 2 ∧ sil_len files ≠ FALLBACK_SILENCE := by
  have hex : existing_durs files = [] := by
    rw [existing_durs, List.filterMap_eq_nil_iff]
    intro a ha
    rw [h a ha]
    rfl
  have havg : avgDur files = 2 := by simp [avgDur, hex]
  have hpos : 0 < avgDur files := by rw [havg]; norm_num
  refine ⟨?_, hpos, ?_, ?_⟩
  · have hdec : ∀ pf : PresentFile, some pf ∈ files → pf.decodeOk = true := by
      intro pf hpf
      exact absurd (h _ hpf) (by simp)
    rw [build_merged_audio_durations, buildDursLoop_eq_map _ _ hdec]
    congr 1
    apply List.map_congr_left
    intro a ha
    rw [h a ha]
    simp [pureDuration, hpos, havg]
  · rw [sil_len, if_pos hpos, havg]
  · rw [sil_len, if_pos hpos, havg, FALLBACK_SILENCE]
    norm_num

/-- C10 (witness): a two-item run with both audio files missing yields two
2.0 s placeholders. -/
theorem all_missing_uses_default_two_witness :
    build_merged_audio_durations [none, none] = .ok [2, 2] ∧
    0 < avgDur [none, none] ∧ sil_len [none, none] = 2 ∧
    sil_len [none, none] ≠ FALLBACK_SILENCE := by
  have h := all_missing_uses_default_two [none, none] (by simp)
  simpa using h

theorem mkItemsFrom_length :
    ∀ (i : ℕ) (rs : List NarrRecord), (mkItemsFrom i rs).length = rs.length
  | _, [] => rfl
  | i, _ :: rs => by
    rw [mkItemsFrom, List.length_cons, List.length_cons, mkItemsFrom_length (i + 1) rs]

/-- C4 (counterexample): a record whose text is the empty string (empty after
trimming) is not skipped: it appears in the loaded list with text "", and an
input producing an empty final list does not abort the run either. -/
theorem loader_no_validation_cex :
    load_narration_items true [⟨some 1, some "", none, none⟩] = .ok [⟨1, ""⟩] ∧
    load_narration_items true [] = .ok [] := ⟨rfl, rfl⟩

/-- C4 (amended): the loader validates no text at all: for every input it
keeps every record (the output has exactly one item per input record, with
text defaulting through the text/caption/fact chain to ""), it returns an
empty list successfully for an empty input, and it fails only when
narration.json is absent. -/
theorem loader_keeps_all_records :
    (∀ data : List NarrRecord, ∃ items,
      load_narration_items true data = .ok items ∧
      items.length = data.length) ∧
    ∀ data : List NarrRecord, load_narration_items false data = .error () := by
  constructor
  · intro data
    refine ⟨mkItemsFrom 1 (pySorted data), rfl, ?_⟩
    rw [mkItemsFrom_length, pySorted, List.length_insertionSort]
  · intro data
    rfl

/-- C5 (counterexample): on the input [{id 2, "a"}, {id absent, "b"}] the
loader sorts the absent-id record with key 0 — not with its input position 2
— so it comes out first: the loaded items are [(1,"b"), (2,"a")], not the
[(2,"a"), (2,"b")] the position-fallback rule would give. -/
theorem loader_absent_id_cex :
    load_narration_items true
      [⟨some 2, some "a", none, none⟩, ⟨none, some "b", none, none⟩] =
      .ok [⟨1, "b"⟩, ⟨2, "a"⟩] ∧
    ([⟨1, "b"⟩, ⟨2, "a"⟩] : List NarrItem) ≠ [⟨2, "a"⟩, ⟨2, "b"⟩] := by
  refine ⟨rfl, ?_⟩
  decide

theorem orderedInsert_filter_key (x : NarrRecord) (v : ℤ) :
    ∀ l : List NarrRecord,
      (List.orderedInsert (fun a b => sortKey a ≤ sortKey b) x l).filter
        (fun y => sortKey y = v) =
      (if sortKey x = v then [x] else []) ++ l.filter (fun y => sortKey y = v)
  | [] => by
    by_cases hx : sortKey x = v <;>
      simp [List.orderedInsert, List.filter_cons, hx]
  | b :: t => by
    by_cases hxb : sortKey x ≤ sortKey b
    · simp only [List.orderedInsert, if_pos hxb]
      by_cases hx : sortKey x = v <;> simp [List.filter_cons, hx]
    · simp only [List.orderedInsert, if_neg hxb]
      rw [List.filter_cons, List.filter_cons, orderedInsert_filter_key x v t]
      push_neg at hxb
      by_cases hx : sortKey x = v
      · have hb : ¬ sortKey b = v := fun h =>
          absurd (h.trans hx.symm) (ne_of_lt hxb)
        simp [hx, hb]
      · by_cases hbv : sortKey b = v <;> simp [hx, hbv]

theorem pySorted_filter_key (data : List NarrRecord) (v : ℤ) :
    (pySorted data).filter (fun r => sortKey r = v) =
      data.filter (fun r => sortKey r = v) := by
  induction data with
  | nil => rfl
  | cons x xs ih =>
    have hstep : pySorted (x :: xs) =
        List.orderedInsert (fun a b => sortKey a ≤ sortKey b) x (pySorted xs) :=
      rfl
    rw [hstep, orderedInsert_filter_key x v (pySorted xs), ih, List.filter_cons]
    by_cases hx : sortKey x = v <;> simp [hx]

/-- C5 (amended): the loader stably sorts the records by the key
`int(id or 0)`: an absent id contributes the key 0 (not the input
position of the record); for every input the result is a permutation of the
input with non-decreasing keys, and for every key value the subsequence of
records carrying that key is unchanged — so records with equal keys (in
particular duplicated ids) always keep their relative input order. -/
theorem loader_sort_by_id_or_zero :
    ∀ data : List NarrRecord,
      (pySorted data).Perm data ∧
      (pySorted data).Sorted (fun a b => sortKey a ≤ sortKey b) ∧
      ∀ v : ℤ, (pySorted data).filter (fun r => sortKey r = v) =
        data.filter (fun r => sortKey r = v) := by
  intro data
  refine ⟨List.perm_insertionSort _ data, ?_, fun v => pySorted_filter_key data v⟩
  haveI : IsTotal NarrRecord (fun a b => sortKey a ≤ sortKey b) :=
    ⟨fun a b => le_total _ _⟩
  haveI : IsTrans NarrRecord (fun a b => sortKey a ≤ sortKey b) :=
    ⟨fun a b c hab hbc => le_trans hab hbc⟩
  exact List.sorted_insertionSort _ data

/-- C6 (counterexample): a run with one narration item whose audio is present
and decodable but with zero images exits with failure — after having already
written the merged narration audio file, so an output file was written. -/
theorem zero_images_writes_output_cex :
    mainSync true [⟨some 1, some "x", none, none⟩]
      (fun _ => some ⟨true, some 1, some 1⟩) 0 = ([.mergedAudio], false) ∧
    ([OutFile.mergedAudio] : List OutFile) ≠ [] := by
  refine ⟨rfl, ?_⟩
  simp

/-- C6 (amended): with zero images in assets/, the sync pipeline does exit
with a non-zero status and writes no video, srt or final output — but only
after `build_merged_audio_per_item` has already written the merged narration
audio, because `pick_images_for_items` runs after the audio merge; so exactly
one output file exists at exit. -/
theorem zero_images_still_writes_merged (data : List NarrRecord)
    (audioOn : ℤ → Option PresentFile)
    (hdec : ∀ (i : ℤ) (pf : PresentFile), audioOn i = some pf →
      pf.decodeOk = true) :
    mainSync true data audioOn 0 = ([.mergedAudio], false) := by
  have hdec2 : ∀ pf : PresentFile,
      some pf ∈ (mkItemsFrom 1 (pySorted data)).map (fun it => audioOn it.id) →
      pf.decodeOk = true := by
    intro pf hpf
    rw [List.mem_map] at hpf
    obtain ⟨it, _, hit⟩ := hpf
    exact hdec it.id pf hit
  have hmerge := buildDursLoop_eq_map
    (avgDur ((mkItemsFrom 1 (pySorted data)).map (fun it => audioOn it.id)))
    ((mkItemsFrom 1 (pySorted data)).map (fun it => audioOn it.id)) hdec2
  simp [mainSync, load_narration_items, build_merged_audio_durations, hmerge]

/-- C6 (witness): one item with missing audio and zero images: exit is
non-zero and the merged audio (of one placeholder) is the only written
output. -/
theorem zero_images_still_writes_merged_witness :
    mainSync true [⟨some 1, some "hi", none, none⟩] (fun _ => none) 0 =
      ([.mergedAudio], false) :=
  zero_images_still_writes_merged [⟨some 1, some "hi", none, none⟩]
    (fun _ => none) (fun _ _ h => Option.noConfusion h)

end AssembleVideo

